import Mathlib

/-!
Verification development for the aashvi-automation repository.

Strings of the source language are embedded as lists of characters
(`Str`), and the string operations used by the code (replace, split,
strip, count, find, slicing) are given executable definitions that
mirror the source semantics.  The posting scan of
`post_on_instagram.scheduled_posts_on_instagram`, the caption assembly,
the generation workflow of
`application/workflows/content_workflow.run_full_content_generation`,
the repository helpers of `core/repositories/content_repository`, and
the retry loop of `infrastructure/apis/openai_client` are modelled as
pure state-passing functions, with external effects (the Poster call,
the AI services, the tabular store read) passed in as explicit
outcome parameters.
-/

namespace Aashvi

/-- Character-list embedding of the source language's strings. -/
abbrev Str := List Char

/-- Whitespace test used by the embedding of the strip operation. -/
def isPySpace (c : Char) : Bool :=
  c = ' ' || c = '\n' || c = '\t' || c = '\r'

/-- Embedding of `str.strip()`: drop whitespace from both ends. -/
def stripChars (s : Str) : Str :=
  ((s.dropWhile isPySpace).reverse.dropWhile isPySpace).reverse

/-- Fuel-driven worker for `str.replace(pat, rep)`: leftmost,
non-overlapping replacement of every occurrence. -/
def replaceAllFuel (pat rep : Str) : Nat → Str → Str
  | 0, s => s
  | fuel + 1, s =>
    if pat ≠ [] ∧ pat.isPrefixOf s then
      rep ++ replaceAllFuel pat rep fuel (s.drop pat.length)
    else
      match s with
      | [] => []
      | c :: rest => c :: replaceAllFuel pat rep fuel rest

/-- Embedding of `s.replace(pat, rep)`. -/
def replaceAll (s pat rep : Str) : Str :=
  replaceAllFuel pat rep (s.length + 1) s

/-- Fuel-driven worker for `str.split(sep)` with a non-empty separator:
leftmost, non-overlapping cuts.  `acc` holds the current piece reversed. -/
def splitOnSubFuel (sep : Str) : Nat → Str → Str → List Str
  | 0, acc, s => [acc.reverse ++ s]
  | fuel + 1, acc, s =>
    if sep ≠ [] ∧ sep.isPrefixOf s then
      acc.reverse :: splitOnSubFuel sep fuel [] (s.drop sep.length)
    else
      match s with
      | [] => [acc.reverse]
      | c :: rest => splitOnSubFuel sep fuel (c :: acc) rest

/-- Embedding of `s.split(sep)`. -/
def splitOnSub (s sep : Str) : List Str :=
  splitOnSubFuel sep (s.length + 1) [] s

/-- Embedding of `sep.join(pieces)`. -/
def joinSep (sep : Str) : List Str → Str
  | [] => []
  | [x] => x
  | x :: xs => x ++ sep ++ joinSep sep xs

/-- Embedding of `s.find(c)` for a single-character needle: index of the
first occurrence, `-1` when absent. -/
def pyFindChar (s : Str) (c : Char) : Int :=
  match s.findIdx? (· = c) with
  | some i => (i : Int)
  | none => -1

/-- Embedding of the slice `s[i:]` with the source language's
negative-index convention. -/
def pySliceFrom (s : Str) (i : Int) : Str :=
  if 0 ≤ i then s.drop i.toNat else s.drop (max ((s.length : Int) + i) 0).toNat

/-- Embedding of the slice `s[:i]` with the source language's
negative-index convention. -/
def pySliceTo (s : Str) (i : Int) : Str :=
  if 0 ≤ i then s.take i.toNat else s.take (max ((s.length : Int) + i) 0).toNat

/-- Embedding of `s.count(c)` for a single-character needle. -/
def countChar (s : Str) (c : Char) : Nat :=
  s.count c

/-!
Caption assembly, from `post_on_instagram.scheduled_posts_on_instagram`
lines 108-129.  The hashtag-trimming algorithm is parametric in the
boilerplate block (`rawCaption0`), the mentions string and the cap; the
source instantiates it with a fixed 17-tag boilerplate, the fixed
mentions list and `max_hashtags = 30`.
-/

/-- Caption assembly of the posting pipeline: extract the hashtag tail
of the row caption, compute `caption_to_remove_from_raw = E + B - cap`,
and when positive replace the boilerplate by
`"#" ++ " #".join(boilerplate.split(" #")[1:k])`, then concatenate
free text, extracted hashtags, boilerplate and mentions. -/
def assembleCaption (rawCaption0 mentions rowCaption : Str) (maxHashtags : Int) : Str :=
  let extracted := stripChars (pySliceFrom rowCaption (pyFindChar rowCaption '#'))
  let rawCount : Int := (countChar rawCaption0 '#' : Int)
  let extCount : Int := (countChar extracted '#' : Int)
  let toRemove : Int := extCount + rawCount - maxHashtags
  let raw1 :=
    if 0 < toRemove then
      ('#' :: []) ++
        joinSep (' ' :: '#' :: [])
          (((splitOnSub rawCaption0 (' ' :: '#' :: [])).drop 1).take (toRemove.toNat - 1))
    else rawCaption0
  let raw2 := if raw1 = ('#' :: []) then [] else raw1
  pySliceTo rowCaption (pyFindChar rowCaption '#') ++ ("\n\n\n").data ++
    extracted ++ raw2 ++ ("\n\n\n").data ++ mentions

/-- Boilerplate hashtag block hardcoded in the source, before the
newline removal and strip that the source applies to the literal. -/
def rawCaptionLiteral : Str :=
  (" #digitalmodel #fashionista #fashiongram #styleblogger #fashionblogger #fashionmodel #modelling\n                #modelswanted #modelsearch #modelphotography #modelpose #modelstatus #modelsofinstagram #modelife \n                #digitalinfluencer #VirtualModel #DigitalFashion").data

/-- Boilerplate block as the source computes it:
`literal.replace("\n", "").strip()`. -/
def rawCaptionConst : Str :=
  stripChars (replaceAll rawCaptionLiteral (("\n").data) [])

/-- Mentions list hardcoded in the source. -/
def mentionsConst : Str :=
  ("@thevarunmayya @acknowledge.ai @eluna.ai").data

/-- Caption built for a row by the posting scan, with the source's
fixed boilerplate, mentions and cap of 30. -/
def buildCaption (rowCaption : Str) : Str :=
  assembleCaption rawCaptionConst mentionsConst rowCaption 30

/-- Location normalization of the posting scan, line 132:
`row["location"].replace("," + main_location, "").strip()`. -/
def normalizeLocation (stored mainLocation : Str) : Str :=
  stripChars (replaceAll stored (',' :: mainLocation) [])

/-- Location cell written at generation time by
`automation.v1_generate_prompts` line 531: `prompt[0] + "," + location`. -/
def genLocationCell (promptLocation location : Str) : Str :=
  promptLocation ++ (',' :: location)

/-!
Posting scan of `post_on_instagram.scheduled_posts_on_instagram`,
lines 82-142, and the `__main__` wrapper of lines 145-154.  A sheet row
is a record of the cells the scan reads; the blank sentinel cell
`index == ''` is `none`.  The Poster call (`post_on_instagram`) is an
external effect and is passed in as an `Except` outcome.
-/

/-- Sheet row as read by the posting scan. -/
structure Row where
  index : Option Int
  approved : Str
  posted_on_instagram : Str
  rowType : Str
  group_id : Str
  image : Str
  caption : Str
  location : Str
deriving Repr, DecidableEq

/-- Mutable state of the posting scan loop. -/
structure ScanState where
  group_id : Str
  image_urls : List Str
  caption : Str
  location : Str
  start_index : Option Int
  indexes : List Int
deriving Repr, DecidableEq

/-- State at entry of the scan loop. -/
def initScanState : ScanState :=
  { group_id := [], image_urls := [], caption := [], location := [],
    start_index := none, indexes := [] }

/-- Image URL extracted from the cell formula, lines 104:
`row["image"].replace("=IMAGE(\"", "").replace("\", 4, 120, 120)", "")`. -/
def extractImageUrl (cell : Str) : Str :=
  replaceAll (replaceAll cell (("=IMAGE(\"").data) []) (("\", 4, 120, 120)").data) []

/-- Loop body for a qualifying, fully-populated row, lines 100-132:
lock the group on first use, append the row's image URL and index,
rebuild the caption when the caption cell is not `"-"`, and store the
normalized location. -/
def accumulateRow (mainLocation : Str) (r : Row) (i : Int) (s : ScanState) : ScanState :=
  let s1 := if s.group_id = [] then
      { s with start_index := some i, group_id := r.group_id } else s
  let s2 := { s1 with
      indexes := s1.indexes ++ [i],
      image_urls := s1.image_urls ++ [extractImageUrl r.image] }
  let s3 := if r.caption ≠ ("-").data then
      { s2 with caption := buildCaption r.caption } else s2
  { s3 with location := normalizeLocation r.location mainLocation }

/-- Qualifying test of line 94: approved, not yet posted, of post type,
and in the active group or with no group locked yet. -/
def rowQualifies (r : Row) (s : ScanState) : Prop :=
  r.approved = ("y").data ∧ r.posted_on_instagram = [] ∧
    r.rowType = ("posts").data ∧ (r.group_id = s.group_id ∨ s.group_id = [])

instance (r : Row) (s : ScanState) : Decidable (rowQualifies r s) := by
  unfold rowQualifies; infer_instance

/-- Missing-cell test of line 96. -/
def rowMissingValues (r : Row) : Prop :=
  r.image = [] ∨ r.caption = [] ∨ r.location = [] ∨ r.group_id = []

instance (r : Row) : Decidable (rowMissingValues r) := by
  unfold rowMissingValues; infer_instance

/-- Scan loop of `scheduled_posts_on_instagram`: a blank `index` cell
breaks; a row failing the approved/unposted/type/group test or missing a
required cell is skipped; otherwise the row is accumulated. -/
def scanRows (mainLocation : Str) : List Row → ScanState → ScanState
  | [], s => s
  | r :: rest, s =>
    match r.index with
    | none => s
    | some i =>
      if rowQualifies r s then
        if rowMissingValues r then
          scanRows mainLocation rest s
        else
          scanRows mainLocation rest (accumulateRow mainLocation r i s)
      else
        scanRows mainLocation rest s

/-- Observable outcome of one posting run. -/
structure RunOutcome where
  posterCall : Option (List Str × Str × Str)
  marked : List Int
  notifications : List Str
  raised : Option Str
deriving Repr, DecidableEq

/-- Success notification text, line 140. -/
def successMessage : Str :=
  ("Successfully posted on instagram, checkout https://www.instagram.com/aashvithemodel").data

/-- Notification text for an empty scan, line 142. -/
def noPostsMessage : Str :=
  ("No posts to post on instagram, please check the sheet").data

/-- Error notification of the `__main__` wrapper, line 151, which embeds
the failure message. -/
def errorNotification (e : Str) : Str :=
  ("Error while posting on instagram\n ").data ++ e

/-- Body of `scheduled_posts_on_instagram` after the scan: when any
image was accumulated, call the Poster with the first six image URLs,
and on success stamp `posted_on_instagram` for the first six accumulated
indexes and notify; a Poster failure propagates as a raised exception.
With an empty scan, send the no-content notification. -/
def scheduledRun (mainLocation : Str) (rows : List Row)
    (posterOutcome : Except Str Unit) : RunOutcome :=
  let s := scanRows mainLocation rows initScanState
  if 0 < s.image_urls.length then
    match posterOutcome with
    | .ok _ =>
      { posterCall := some (s.image_urls.take 6, s.caption, s.location),
        marked := s.indexes.take 6,
        notifications := [successMessage], raised := none }
    | .error e =>
      { posterCall := some (s.image_urls.take 6, s.caption, s.location),
        marked := [], notifications := [], raised := some e }
  else
    { posterCall := none, marked := [],
      notifications := [noPostsMessage], raised := none }

/-- Top-level `__main__` wrapper, lines 145-154: any exception raised by
the run is caught, an error notification carrying the message is sent,
and nothing is re-raised. -/
def mainRun (mainLocation : Str) (rows : List Row)
    (posterOutcome : Except Str Unit) : RunOutcome :=
  let r := scheduledRun mainLocation rows posterOutcome
  match r.raised with
  | some e =>
    { r with notifications := r.notifications ++ [errorNotification e],
             raised := none }
  | none => r

/-!
Content repository, from `core/repositories/content_repository.py`.
The outcome of `get_all_content` (a store read) is passed in as an
`Except` value; `_get_last_index` and `get_non_posted_content_counts`
swallow any failure of that read.
-/

/-- Content type of a parsed item. -/
inductive CType where
  | post
  | story
deriving Repr, DecidableEq

/-- Approval status of a parsed item. -/
inductive AStatus where
  | pending
  | approved
  | rejected
deriving Repr, DecidableEq

/-- Posting status of a parsed item. -/
inductive PStatus where
  | notPosted
  | posted
  | failed
deriving Repr, DecidableEq

/-- Parsed content item, restricted to the fields the modelled
repository helpers read. -/
structure Item where
  index : Int
  content_type : CType
  group_id : String
  approval_status : AStatus
  posting_status : PStatus
  has_image : Bool
deriving Repr, DecidableEq

/-- Backlog counts returned by `get_non_posted_content_counts`. -/
structure Counts where
  posts : Nat
  stories : Nat
  approved_posts : Nat
  approved_stories : Nat
deriving Repr, DecidableEq

/-- Embedding of `get_non_posted_content_counts`, lines 416-455: posts
are counted by distinct `group_id` among not-posted post items, stories
by row; the catch-all handler turns any failed store read into the
all-zero dictionary. -/
def getNonPostedContentCounts (fetched : Except String (List Item)) : Counts :=
  match fetched with
  | .error _ => { posts := 0, stories := 0, approved_posts := 0, approved_stories := 0 }
  | .ok items =>
    let nonPosted := items.filter (fun it => it.posting_status = PStatus.notPosted)
    let postItems := nonPosted.filter (fun it => it.content_type = CType.post)
    let storyItems := nonPosted.filter (fun it => it.content_type = CType.story)
    let approvedPostItems := postItems.filter
      (fun it => it.approval_status = AStatus.approved ∧ it.has_image = true)
    let approvedStoryItems := storyItems.filter
      (fun it => it.approval_status = AStatus.approved ∧ it.has_image = true)
    { posts := ((postItems.map (fun it => it.group_id)).dedup).length,
      stories := storyItems.length,
      approved_posts := ((approvedPostItems.map (fun it => it.group_id)).dedup).length,
      approved_stories := approvedStoryItems.length }

/-- Embedding of `_get_last_index`, lines 457-472: the maximum `index`
over the fetched items, `0` for an empty store, and `0` again for ANY
exception raised by the read, which the catch-all handler swallows. -/
def getLastIndex (fetched : Except String (List Item)) : Int :=
  match fetched with
  | .error _ => 0
  | .ok [] => 0
  | .ok (it :: rest) => rest.foldl (fun acc x => max acc x.index) it.index

/-- Embedding of `create_content_batch`, lines 163-204: each item of a
non-empty batch receives index `last_index + i + 1` and the rows are
appended. -/
def createContentBatch (fetched : Except String (List Item))
    (contentItems : List Item) : List Item :=
  if contentItems = [] then []
  else
    let lastIndex := getLastIndex fetched
    contentItems.enum.map (fun p => { p.2 with index := lastIndex + (p.1 : Int) + 1 })

/-!
Generation workflow, from
`application/workflows/content_workflow.run_full_content_generation`,
lines 47-114.  The repository flag reads/writes are modelled as explicit
state; the outcomes of `_generate_posts` and `_generate_stories` are
`Except` parameters, and the observable calls the workflow makes are
recorded as an action trace.
-/

/-- Observable action of the generation workflow. -/
inductive WAction where
  | notifyUpdate (operation status : String)
  | generatePosts
  | generateStories
  | notifyError (message : String)
deriving Repr, DecidableEq

/-- Result of one `run_full_content_generation` invocation: the returned
boolean, the final value of the persisted running flag, and the trace of
actions performed. -/
structure WorkflowResult where
  returned : Bool
  finalFlag : Bool
  actions : List WAction
deriving Repr, DecidableEq

/-- Embedding of `run_full_content_generation`: an already-set flag
returns `True` at once; otherwise the flag is set, the backlog counts
are compared against the thresholds, the deficient categories are
generated, and the inner `finally` clears the flag on the normal and on
the exceptional path before the outer handler turns an exception into an
error notification and a `False` return. -/
def runFullContentGeneration (flag0 : Bool) (counts : Counts)
    (maxPosts maxStories : Nat)
    (postsOutcome storiesOutcome : Except String Unit) : WorkflowResult :=
  if flag0 then
    { returned := true, finalFlag := flag0, actions := [] }
  else
    let started := [WAction.notifyUpdate ("Content Generation") ("started")]
    let postStep : List WAction × Except String Unit :=
      if counts.posts < maxPosts then ([WAction.generatePosts], postsOutcome)
      else ([], Except.ok ())
    match postStep.2 with
    | .error e =>
      { returned := false, finalFlag := false,
        actions := started ++ postStep.1 ++
          [WAction.notifyError (("Content generation failed: ") ++ e)] }
    | .ok _ =>
      let storyStep : List WAction × Except String Unit :=
        if counts.stories < maxStories then ([WAction.generateStories], storiesOutcome)
        else ([], Except.ok ())
      match storyStep.2 with
      | .error e =>
        { returned := false, finalFlag := false,
          actions := started ++ postStep.1 ++ storyStep.1 ++
            [WAction.notifyError (("Content generation failed: ") ++ e)] }
      | .ok _ =>
        { returned := true, finalFlag := false,
          actions := started ++ postStep.1 ++ storyStep.1 ++
            [WAction.notifyUpdate ("Content Generation") ("completed")] }

/-- Embedding of the legacy run-flag guard of `automation.__main__`,
lines 573-586: the flag file is read; `"yep"` exits at once; otherwise
`"yep"` is written, the generation work runs with no surrounding
try/finally, and `"nope"` is written only after a normal return.  The
result is the final flag-file content paired with the exception that
escapes, if any. -/
def automationMain (flag0 : String) (work : Except String Unit) :
    String × Option String :=
  if flag0 = ("yep") then (flag0, none)
  else
    match work with
    | .ok _ => (("nope"), none)
    | .error e => (("yep"), some e)

/-!
Retry loop of `infrastructure/apis/openai_client.py`: `_make_api_call`
(lines 104-138) and the error translation of `generate_completion`
(lines 86-102).  The underlying API is a function from the attempt
number to that attempt's outcome.
-/

/-- Error raised by the underlying API library. -/
inductive RawErr where
  | rateLimit (msg : String)
  | authentication (msg : String)
  | invalidRequest (msg : String)
  | apiError (msg : String)
  | timeout (msg : String)
deriving Repr, DecidableEq

/-- Error leaving `_make_api_call`: either an uncaught library error or
the wrapped error raised after the API-error retries are exhausted. -/
inductive MakeCallErr where
  | raw (e : RawErr)
  | wrapped (msg : String)
deriving Repr, DecidableEq

/-- Log of one `_make_api_call` execution: attempts consumed and the
backoff sleeps performed, in seconds. -/
structure CallLog where
  attempts : Nat
  sleeps : List Nat
deriving Repr, DecidableEq

/-- Loop body of `_make_api_call` with `max_retries = 3` and
`base_delay = 1`: a rate-limit failure before the last attempt sleeps
`base_delay * 2 ^ attempt` and retries, on the last attempt it is
re-raised; an API error or timeout behaves likewise but is re-raised
wrapped; any other error propagates at once. -/
def makeApiCallAux (results : Nat → Except RawErr α) :
    Nat → Nat → List Nat → Except MakeCallErr α × CallLog
  | attempt, 0, sleeps => (Except.error (MakeCallErr.wrapped ("loop exhausted")), ⟨attempt, sleeps⟩)
  | attempt, remaining + 1, sleeps =>
    match results attempt with
    | .ok v => (Except.ok v, ⟨attempt + 1, sleeps⟩)
    | .error (RawErr.rateLimit m) =>
      if attempt = 3 - 1 then
        (Except.error (MakeCallErr.raw (RawErr.rateLimit m)), ⟨attempt + 1, sleeps⟩)
      else
        makeApiCallAux results (attempt + 1) remaining (sleeps ++ [2 ^ attempt])
    | .error (RawErr.apiError m) =>
      if attempt = 3 - 1 then
        (Except.error (MakeCallErr.wrapped (("API error after 3 attempts: ") ++ m)),
         ⟨attempt + 1, sleeps⟩)
      else
        makeApiCallAux results (attempt + 1) remaining (sleeps ++ [2 ^ attempt])
    | .error (RawErr.timeout m) =>
      if attempt = 3 - 1 then
        (Except.error (MakeCallErr.wrapped (("API error after 3 attempts: ") ++ m)),
         ⟨attempt + 1, sleeps⟩)
      else
        makeApiCallAux results (attempt + 1) remaining (sleeps ++ [2 ^ attempt])
    | .error e => (Except.error (MakeCallErr.raw e), ⟨attempt + 1, sleeps⟩)

/-- Embedding of `_make_api_call`: run the loop over the three attempts. -/
def makeApiCall (results : Nat → Except RawErr α) : Except MakeCallErr α × CallLog :=
  makeApiCallAux results 0 3 []

/-- Typed error surfaced by `generate_completion` to its callers. -/
inductive ClientErr where
  | rateLimitErr (msg : String)
  | authenticationErr (msg : String)
  | genericErr (msg : String)
deriving Repr, DecidableEq

/-- Embedding of `generate_completion`'s exception translation: a raw
rate-limit error becomes the typed rate-limit kind, a raw authentication
error the typed authentication kind, a raw invalid-request error a
generic error, and anything else — including the wrapped error produced
inside `_make_api_call` — a generic catch-all error. -/
def generateCompletion (results : Nat → Except RawErr α) :
    Except ClientErr α × CallLog :=
  let r := makeApiCall results
  match r.1 with
  | .ok v => (Except.ok v, r.2)
  | .error (MakeCallErr.raw (RawErr.rateLimit m)) =>
    (Except.error (ClientErr.rateLimitErr m), r.2)
  | .error (MakeCallErr.raw (RawErr.authentication m)) =>
    (Except.error (ClientErr.authenticationErr m), r.2)
  | .error (MakeCallErr.raw (RawErr.invalidRequest m)) =>
    (Except.error (ClientErr.genericErr (("Invalid request: ") ++ m)), r.2)
  | .error (MakeCallErr.raw (RawErr.apiError m)) =>
    (Except.error (ClientErr.genericErr (("API call failed: ") ++ m)), r.2)
  | .error (MakeCallErr.raw (RawErr.timeout m)) =>
    (Except.error (ClientErr.genericErr (("API call failed: ") ++ m)), r.2)
  | .error (MakeCallErr.wrapped m) =>
    (Except.error (ClientErr.genericErr (("API call failed: ") ++ m)), r.2)

/-!
Concrete inputs for the scenario claims and for witness evaluation.
-/

/-- Current-location file content used by the scenarios. -/
def mlConc : Str := ("Paris").data

/-- Image cell in the formula shape that `update_image_data` writes. -/
def imgCellConc : Str := ("=IMAGE(\"https://img/a.png\", 4, 120, 120)").data

/-- Approved, fully-populated post row of group `g1` at a given index. -/
def rowG1At (n : Int) : Row :=
  { index := some n, approved := ("y").data, posted_on_instagram := [],
    rowType := ("posts").data, group_id := ("g1").data, image := imgCellConc,
    caption := ("-").data, location := ("Kyoto,Paris").data }

/-- Approved, fully-populated post row of group `g2` at a given index. -/
def rowG2At (n : Int) : Row :=
  { rowG1At n with group_id := ("g2").data }

/-- Scenario store of the contiguity claim: two `g1` rows followed by a
`g2` row. -/
def rowsScenario : List Row := [rowG1At 1, rowG1At 2, rowG2At 3]

/-- Store with a `g1` row, a `g2` row, then another `g1` row, exhibiting
a qualifying active-group row after the first mismatched-group row. -/
def rowsInterleaved : List Row := [rowG1At 1, rowG2At 2, rowG1At 3]

/-- Store of seven qualifying `g1` rows. -/
def rowsSeven : List Row :=
  [rowG1At 1, rowG1At 2, rowG1At 3, rowG1At 4, rowG1At 5, rowG1At 6, rowG1At 7]

/-- Boilerplate block of 25 hashtags for the budget scenario. -/
def bp25 : Str :=
  ("#b01 #b02 #b03 #b04 #b05 #b06 #b07 #b08 #b09 #b10 #b11 #b12 #b13 #b14 #b15 #b16 #b17 #b18 #b19 #b20 #b21 #b22 #b23 #b24 #b25").data

/-- Row caption with free text and 10 extracted hashtags for the budget
scenario. -/
def row10 : Str :=
  ("Amazing view! #e1 #e2 #e3 #e4 #e5 #e6 #e7 #e8 #e9 #e10").data

/-- Sample parsed content item for witness evaluation. -/
def itemConc : Item :=
  { index := 5, content_type := CType.post, group_id := ("g1"),
    approval_status := AStatus.pending, posting_status := PStatus.notPosted,
    has_image := false }

set_option maxRecDepth 200000

/-- Group field of the accumulation step: locked to the row's group when
no group is active, untouched otherwise. -/
theorem accumulateRow_group_id (ml : Str) (r : Row) (i : Int) (s : ScanState) :
    (accumulateRow ml r i s).group_id =
      if s.group_id = [] then r.group_id else s.group_id := by
  simp only [accumulateRow]
  split <;> split <;> rfl

/-- Accumulation appends exactly the row's index. -/
theorem accumulateRow_indexes (ml : Str) (r : Row) (i : Int) (s : ScanState) :
    (accumulateRow ml r i s).indexes = s.indexes ++ [i] := by
  simp only [accumulateRow]
  split <;> split <;> rfl

/-- Accumulation appends exactly the row's extracted image URL. -/
theorem accumulateRow_image_urls (ml : Str) (r : Row) (i : Int) (s : ScanState) :
    (accumulateRow ml r i s).image_urls = s.image_urls ++ [extractImageUrl r.image] := by
  simp only [accumulateRow]
  split <;> split <;> rfl

/-- Once an active group is locked, the scan never changes it. -/
theorem scanRows_group_stable (ml : Str) :
    ∀ (rows : List Row) (s : ScanState), s.group_id ≠ [] →
      (scanRows ml rows s).group_id = s.group_id := by
  intro rows
  induction rows with
  | nil => intro s _; rfl
  | cons r rest ih =>
    intro s h
    rw [scanRows]
    cases hix : r.index with
    | none => rfl
    | some i =>
      dsimp only
      by_cases hq : rowQualifies r s
      · rw [if_pos hq]
        by_cases hm : rowMissingValues r
        · rw [if_pos hm]; exact ih s h
        · rw [if_neg hm]
          have hg : (accumulateRow ml r i s).group_id = s.group_id := by
            rw [accumulateRow_group_id, if_neg h]
          rw [ih (accumulateRow ml r i s) (by rw [hg]; exact h), hg]
      · rw [if_neg hq]; exact ih s h

/-- Group field after accumulating a qualifying row equals that row's
group: either the row locked the group, or the qualifying test forced
the row's group to match the active one. -/
theorem accumulateRow_group_locked (ml : Str) (r : Row) (i : Int) (s : ScanState)
    (hq : rowQualifies r s) :
    (accumulateRow ml r i s).group_id = r.group_id := by
  rw [accumulateRow_group_id]
  by_cases h : s.group_id = []
  · rw [if_pos h]
  · rw [if_neg h]
    rcases hq.2.2.2 with h1 | h1
    · exact h1.symm
    · exact absurd h1 h

/-- Every index the scan accumulates was either already accumulated or
belongs to a scanned row whose group equals the final active group. -/
theorem scanRows_indexes_sound (ml : Str) :
    ∀ (rows : List Row) (s : ScanState) (i : Int),
      i ∈ (scanRows ml rows s).indexes →
      i ∈ s.indexes ∨ ∃ r, r ∈ rows ∧ r.index = some i ∧
        r.group_id = (scanRows ml rows s).group_id := by
  intro rows
  induction rows with
  | nil => intro s i h; exact Or.inl h
  | cons r rest ih =>
    intro s i h
    rw [scanRows] at h ⊢
    cases hix : r.index with
    | none =>
      rw [hix] at h
      exact Or.inl h
    | some i0 =>
      rw [hix] at h
      dsimp only at h ⊢
      by_cases hq : rowQualifies r s
      · rw [if_pos hq] at h ⊢
        by_cases hm : rowMissingValues r
        · rw [if_pos hm] at h ⊢
          rcases ih s i h with h1 | ⟨r', hr', hidx, hgrp⟩
          · exact Or.inl h1
          · exact Or.inr ⟨r', List.mem_cons_of_mem r hr', hidx, hgrp⟩
        · rw [if_neg hm] at h ⊢
          have hgid : (accumulateRow ml r i0 s).group_id = r.group_id :=
            accumulateRow_group_locked ml r i0 s hq
          have hne : r.group_id ≠ [] := fun hg => hm (Or.inr (Or.inr (Or.inr hg)))
          have hfinal : (scanRows ml rest (accumulateRow ml r i0 s)).group_id = r.group_id := by
            rw [scanRows_group_stable ml rest (accumulateRow ml r i0 s)
              (by rw [hgid]; exact hne), hgid]
          rcases ih (accumulateRow ml r i0 s) i h with h1 | ⟨r', hr', hidx, hgrp⟩
          · rw [accumulateRow_indexes] at h1
            rcases List.mem_append.mp h1 with h2 | h2
            · exact Or.inl h2
            · have hii : i = i0 := List.mem_singleton.mp h2
              exact Or.inr ⟨r, List.mem_cons_self r rest, hii ▸ hix, hfinal.symm⟩
          · exact Or.inr ⟨r', List.mem_cons_of_mem r hr', hidx, hgrp⟩
      · rw [if_neg hq] at h ⊢
        rcases ih s i h with h1 | ⟨r', hr', hidx, hgrp⟩
        · exact Or.inl h1
        · exact Or.inr ⟨r', List.mem_cons_of_mem r hr', hidx, hgrp⟩

/-- Image URLs and indexes are accumulated in lockstep. -/
theorem scanRows_length_eq (ml : Str) :
    ∀ (rows : List Row) (s : ScanState),
      s.image_urls.length = s.indexes.length →
      (scanRows ml rows s).image_urls.length = (scanRows ml rows s).indexes.length := by
  intro rows
  induction rows with
  | nil => intro s h; exact h
  | cons r rest ih =>
    intro s h
    rw [scanRows]
    cases hix : r.index with
    | none => exact h
    | some i0 =>
      dsimp only
      by_cases hq : rowQualifies r s
      · rw [if_pos hq]
        by_cases hm : rowMissingValues r
        · rw [if_pos hm]; exact ih s h
        · rw [if_neg hm]
          refine ih (accumulateRow ml r i0 s) ?_
          rw [accumulateRow_indexes, accumulateRow_image_urls]
          simp [h]
      · rw [if_neg hq]; exact ih s h

/-- Claim C1, code bug, evaluated at the failing input of the spec's own
scenario: with E = 10 extracted hashtags, a B = 25 tag boilerplate and
cap 30, the code keeps boilerplate tags 1 through 4 instead of dropping
the first 5, so the assembled caption carries 14 hashtags where the
claim requires min(E+B, C) = 30.  The slice `[1:caption_to_remove_from_raw]`
keeps the tags it was meant to remove. -/
theorem c1_hashtag_budget_failing_input :
    countChar bp25 '#' = 25 ∧
    countChar row10 '#' = 10 ∧
    assembleCaption bp25 mentionsConst row10 30 =
      ("Amazing view! \n\n\n#e1 #e2 #e3 #e4 #e5 #e6 #e7 #e8 #e9 #e10#b02 #b03 #b04 #b05\n\n\n@thevarunmayya @acknowledge.ai @eluna.ai").data ∧
    countChar (assembleCaption bp25 mentionsConst row10 30) '#' = 14 ∧
    countChar (assembleCaption bp25 mentionsConst row10 30) '#' ≠ min (10 + 25) 30 := by
  refine ⟨rfl, rfl, rfl, rfl, ?_⟩
  intro hc
  have h14 : countChar (assembleCaption bp25 mentionsConst row10 30) '#' = 14 := rfl
  rw [h14] at hc
  exact absurd hc (by norm_num)

/-- Claim C2, counterexample: with a `g1` row, then a `g2` row, then a
second `g1` row, the scan does not stop at the mismatched `g2` row; the
`g1` row after it is accumulated and posted, so rows at or after the
first mismatched-group row are not all excluded. -/
theorem c2_contiguity_counterexample :
    (mainRun mlConc rowsInterleaved (Except.ok ())).marked = [1, 3] ∧
    (3 : Int) ∈ (mainRun mlConc rowsInterleaved (Except.ok ())).marked := by
  exact ⟨by rfl, by decide⟩

/-- Claim C2 as amended: a row whose group differs from the active group
is skipped, never accumulated — every accumulated index belongs to a
scanned row of the active group — but the scan continues past it; in the
concrete scenario of two qualifying `g1` rows followed by one `g2` row,
exactly the `g1` rows are posted and the `g2` row is untouched. -/
theorem c2_group_filtering_amended :
    (∀ (ml : Str) (rows : List Row) (i : Int),
        i ∈ (scanRows ml rows initScanState).indexes →
        ∃ r, r ∈ rows ∧ r.index = some i ∧
          r.group_id = (scanRows ml rows initScanState).group_id) ∧
    (mainRun mlConc rowsScenario (Except.ok ())).marked = [1, 2] := by
  constructor
  · intro ml rows i h
    rcases scanRows_indexes_sound ml rows initScanState i h with h1 | h2
    · exact absurd h1 (List.not_mem_nil i)
    · exact h2
  · rfl

/-- Witness for C2's amended theorem at the concrete scenario store. -/
theorem c2_group_filtering_witness :
    ∃ r, r ∈ rowsScenario ∧ r.index = some 1 ∧
      r.group_id = (scanRows mlConc rowsScenario initScanState).group_id :=
  c2_group_filtering_amended.1 mlConc rowsScenario 1 (by decide)

/-- Claim C3: the pipeline passes at most 6 image URLs to the Poster
call, after success it stamps exactly the first at-most-6 accumulated
indexes, and with distinct indexes every accumulated row past the sixth
is left unstamped for a future run. -/
theorem c3_image_cap (ml : Str) (rows : List Row) (po : Except Str Unit) :
    (∀ c, (scheduledRun ml rows po).posterCall = some c → c.1.length ≤ 6) ∧
    (scheduledRun ml rows (Except.ok ())).marked =
      (scanRows ml rows initScanState).indexes.take 6 ∧
    (scheduledRun ml rows (Except.ok ())).marked.length ≤ 6 ∧
    ((scanRows ml rows initScanState).indexes.Nodup →
      ∀ i ∈ (scanRows ml rows initScanState).indexes.drop 6,
        i ∉ (scheduledRun ml rows (Except.ok ())).marked) := by
  have hmarked : (scheduledRun ml rows (Except.ok ())).marked =
      (scanRows ml rows initScanState).indexes.take 6 := by
    unfold scheduledRun
    by_cases hlen : 0 < (scanRows ml rows initScanState).image_urls.length
    · rw [if_pos hlen]
    · rw [if_neg hlen]
      have h0 : (scanRows ml rows initScanState).image_urls.length = 0 :=
        Nat.eq_zero_of_not_pos hlen
      have h1 : (scanRows ml rows initScanState).indexes.length = 0 := by
        rw [← scanRows_length_eq ml rows initScanState rfl]
        exact h0
      rw [List.eq_nil_of_length_eq_zero h1]
      rfl
  refine ⟨?_, hmarked, ?_, ?_⟩
  · intro c hc
    unfold scheduledRun at hc
    by_cases hlen : 0 < (scanRows ml rows initScanState).image_urls.length
    · rw [if_pos hlen] at hc
      cases po with
      | ok _ =>
        simp only [Option.some.injEq] at hc
        rw [← hc]
        simp [List.length_take]
      | error e =>
        simp only [Option.some.injEq] at hc
        rw [← hc]
        simp [List.length_take]
    · rw [if_neg hlen] at hc
      exact absurd hc (by simp)
  · rw [hmarked, List.length_take]
    exact min_le_left 6 _
  · intro hnd i hdrop hmem
    rw [hmarked] at hmem
    exact (List.disjoint_take_drop hnd (le_refl 6)) hmem hdrop

/-- Witness for C3 on a store of seven qualifying rows of one group:
the Poster receives at most 6 URLs and row 7 is not stamped. -/
theorem c3_image_cap_witness :
    ((scanRows mlConc rowsSeven initScanState).image_urls.take 6,
      (scanRows mlConc rowsSeven initScanState).caption,
      (scanRows mlConc rowsSeven initScanState).location).1.length ≤ 6 ∧
    ¬ (7 : Int) ∈ (scheduledRun mlConc rowsSeven (Except.ok ())).marked :=
  ⟨(c3_image_cap mlConc rowsSeven (Except.ok ())).1
      ((scanRows mlConc rowsSeven initScanState).image_urls.take 6,
       (scanRows mlConc rowsSeven initScanState).caption,
       (scanRows mlConc rowsSeven initScanState).location) (by rfl),
   (c3_image_cap mlConc rowsSeven (Except.ok ())).2.2.2 (by decide) 7 (by decide)⟩

/-- Claim C4, counterexample: the stored location of the spec's own
example, `"Kyoto, Paris"` with a space after the comma, is unchanged by
the code's normalization — the code removes occurrences of
`",Paris"` with no space, so the result is not `"Kyoto"`. -/
theorem c4_location_counterexample :
    normalizeLocation (("Kyoto, Paris").data) (("Paris").data) = ("Kyoto, Paris").data ∧
    normalizeLocation (("Kyoto, Paris").data) (("Paris").data) ≠ ("Kyoto").data := by
  refine ⟨rfl, ?_⟩
  intro hc
  have h1 : normalizeLocation (("Kyoto, Paris").data) (("Paris").data) =
      ("Kyoto, Paris").data := rfl
  rw [h1] at hc
  exact absurd hc (by decide)

/-- Claim C4 as amended: the stored suffix has no space — generation
writes `prompt_location + "," + current_location` — and normalization
removes every `",<currentLocation>"` occurrence and strips whitespace,
so the generated cell for `"Kyoto"` at current location `"Paris"`
normalizes to `"Kyoto"`. -/
theorem c4_location_amended :
    normalizeLocation (genLocationCell (("Kyoto").data) (("Paris").data)) (("Paris").data) =
      ("Kyoto").data ∧
    normalizeLocation (("Kyoto,Paris").data) (("Paris").data) = ("Kyoto").data := by
  exact ⟨rfl, rfl⟩

/-- Claim C5: when the Poster call fails, no accumulated row is stamped
as posted, the run raises nothing to its caller, and the single error
notification sent embeds the failure message. -/
theorem c5_posting_failure_atomicity (ml : Str) (rows : List Row) (e : Str)
    (h : 0 < (scanRows ml rows initScanState).image_urls.length) :
    (mainRun ml rows (Except.error e)).marked = [] ∧
    (mainRun ml rows (Except.error e)).raised = none ∧
    (mainRun ml rows (Except.error e)).notifications = [errorNotification e] ∧
    ∃ pre suf, errorNotification e = pre ++ e ++ suf := by
  unfold mainRun scheduledRun
  rw [if_pos h]
  refine ⟨rfl, rfl, rfl, ("Error while posting on instagram\n ").data, [], ?_⟩
  simp [errorNotification]

/-- Witness for C5 on a one-row store and a failing Poster. -/
theorem c5_posting_failure_atomicity_witness :
    (mainRun mlConc [rowG1At 1] (Except.error (("network down").data))).marked = [] ∧
    (mainRun mlConc [rowG1At 1] (Except.error (("network down").data))).raised = none ∧
    (mainRun mlConc [rowG1At 1] (Except.error (("network down").data))).notifications =
      [errorNotification (("network down").data)] ∧
    ∃ pre suf, errorNotification (("network down").data) =
      pre ++ (("network down").data) ++ suf :=
  c5_posting_failure_atomicity mlConc [rowG1At 1] (("network down").data) (by decide)

/-- Claim C6, counterexample: the legacy lock-guarded generation entry
of `automation.__main__` does not reset the run flag when the protected
work raises — starting not-running, a failing work leaves the flag file
at `"yep"` on exit. -/
theorem c6_release_counterexample :
    automationMain ("nope") (Except.error ("boom")) = (("yep"), some ("boom")) ∧
    ("yep" : String) ≠ ("nope") := by
  exact ⟨rfl, by decide⟩

/-- Claim C6 as amended: in the workflow implementation
`run_full_content_generation`, the running flag is cleared on every exit
path of the protected work, normal or exceptional — the legacy
`automation.__main__` entry clears it only on normal completion. -/
theorem c6_release_amended (counts : Counts) (maxPosts maxStories : Nat)
    (po so : Except String Unit) :
    (runFullContentGeneration false counts maxPosts maxStories po so).finalFlag = false := by
  unfold runFullContentGeneration
  simp only [Bool.false_eq_true, if_false]
  by_cases hp : counts.posts < maxPosts <;>
    by_cases hs : counts.stories < maxStories <;>
      simp only [hp, hs, if_pos, if_neg, if_true, if_false] <;>
        cases po <;> cases so <;> rfl

/-- Claim C7: with the run flag already set, the workflow returns
success immediately, performs no action — no AI capability call, no
content creation or mutation, no notification — and leaves the flag
untouched. -/
theorem c7_runlock_noop (counts : Counts) (maxPosts maxStories : Nat)
    (po so : Except String Unit) :
    runFullContentGeneration true counts maxPosts maxStories po so =
      { returned := true, finalFlag := true, actions := [] } := rfl

/-- Claim C8: a call failing with the retryable rate-limit kind on every
attempt is retried with doubling backoff sleeps of 1 then 2 seconds and
surfaces as the typed rate-limit error only after the third attempt,
while a call failing with the non-retryable authentication kind surfaces
immediately after one attempt with no backoff sleep. -/
theorem c8_retry_policy (α : Type) (results results2 : Nat → Except RawErr α) (m m2 : String) :
    ((∀ n, n < 3 → results n = Except.error (RawErr.rateLimit m)) →
      generateCompletion results =
        (Except.error (ClientErr.rateLimitErr m), ⟨3, [1, 2]⟩)) ∧
    (results2 0 = Except.error (RawErr.authentication m2) →
      generateCompletion results2 =
        (Except.error (ClientErr.authenticationErr m2), ⟨1, []⟩)) := by
  constructor
  · intro h
    have h0 := h 0 (by norm_num)
    have h1 := h 1 (by norm_num)
    have h2 := h 2 (by norm_num)
    simp [generateCompletion, makeApiCall, makeApiCallAux, h0, h1, h2]
  · intro h
    simp [generateCompletion, makeApiCall, makeApiCallAux, h]

/-- Witness for C8 with concrete always-rate-limited and
authentication-failing call outcomes. -/
theorem c8_retry_policy_witness :
    generateCompletion (fun _ => (Except.error (RawErr.rateLimit ("rl")) : Except RawErr Unit)) =
      (Except.error (ClientErr.rateLimitErr ("rl")), ⟨3, [1, 2]⟩) ∧
    generateCompletion (fun _ => (Except.error (RawErr.authentication ("bad")) : Except RawErr Unit)) =
      (Except.error (ClientErr.authenticationErr ("bad")), ⟨1, []⟩) :=
  ⟨(c8_retry_policy Unit (fun _ => Except.error (RawErr.rateLimit ("rl")))
      (fun _ => Except.error (RawErr.authentication ("bad"))) ("rl") ("bad")).1
      (fun _ _ => rfl),
   (c8_retry_policy Unit (fun _ => Except.error (RawErr.rateLimit ("rl")))
      (fun _ => Except.error (RawErr.authentication ("bad"))) ("rl") ("bad")).2 rfl⟩

/-- Claim C9: a failed store read during index computation is swallowed
— `_get_last_index` returns 0 on any exception — so a non-empty batch is
still appended, with indices assigned 1, 2, … over the unknown existing
rows instead of a storage error being raised. -/
theorem c9_last_index_swallows_failure (e : String) (items : List Item)
    (h : items ≠ []) :
    getLastIndex (Except.error e) = 0 ∧
    (createContentBatch (Except.error e) items).map (fun it => it.index) =
      (List.range items.length).map (fun n : Nat => ((n : Int) + 1)) := by
  refine ⟨rfl, ?_⟩
  apply List.ext_getElem
  · simp [createContentBatch, if_neg h]
  · intro n h1 h2
    simp [createContentBatch, if_neg h, getLastIndex, List.getElem_enum]

/-- Witness for C9 on a one-item batch over a failed read. -/
theorem c9_last_index_swallows_failure_witness :
    getLastIndex (Except.error ("store down")) = 0 ∧
    (createContentBatch (Except.error ("store down")) [itemConc]).map (fun it => it.index) =
      (List.range ([itemConc] : List Item).length).map (fun n : Nat => ((n : Int) + 1)) :=
  c9_last_index_swallows_failure ("store down") [itemConc] (by decide)

/-- Claim C10: on any storage failure the counts helper returns the
all-zero dictionary instead of raising, and the workflow, fed that
result with a positive posts threshold, proceeds to generate posts as if
the backlog were empty. -/
theorem c10_counts_failure_treated_as_empty (e : String) (maxPosts maxStories : Nat)
    (po so : Except String Unit) (h : 1 ≤ maxPosts) :
    getNonPostedContentCounts (Except.error e) =
      { posts := 0, stories := 0, approved_posts := 0, approved_stories := 0 } ∧
    WAction.generatePosts ∈
      (runFullContentGeneration false (getNonPostedContentCounts (Except.error e))
        maxPosts maxStories po so).actions := by
  refine ⟨rfl, ?_⟩
  have hp : (getNonPostedContentCounts (Except.error e)).posts < maxPosts := h
  unfold runFullContentGeneration
  simp only [Bool.false_eq_true, if_false, hp, if_true, if_pos]
  cases po with
  | error e2 => simp
  | ok _ =>
    by_cases hs : (getNonPostedContentCounts (Except.error e)).stories < maxStories <;>
      simp only [hs, if_pos, if_neg, if_true, if_false] <;> cases so <;> simp

/-- Witness for C10 with the default thresholds of 5. -/
theorem c10_counts_failure_treated_as_empty_witness :
    getNonPostedContentCounts (Except.error ("store down")) =
      { posts := 0, stories := 0, approved_posts := 0, approved_stories := 0 } ∧
    WAction.generatePosts ∈
      (runFullContentGeneration false (getNonPostedContentCounts (Except.error ("store down")))
        5 5 (Except.ok ()) (Except.ok ())).actions :=
  c10_counts_failure_treated_as_empty ("store down") 5 5 (Except.ok ()) (Except.ok ())
    (by norm_num)

end Aashvi
